import Mathlib

/-!
Verification of the GObject subclass bridge (src/subclass/object.rs).

The source is an FFI adapter: three C-ABI vtable trampolines
(`get_property`, `set_property`, `constructed`), the `ObjectImpl` trait
defaults, `install_properties`, and the signal registration functions.
The code is effectful, so we embed it as trace semantics: each trampoline
is a pure function from its ABI arguments to the list of observable
events it performs, in order, and each registration function returns a
record of the single foreign call it makes together with the heap objects
it creates.  Machine integers are `Nat` with explicit reduction modulo
2 ^ 32 where the Rust code performs wrapping `u32` arithmetic.
-/

/-- Raw foreign pointers (object instances, value slots, function
pointers) are modelled as natural-number addresses. -/
abbrev RawPtr := Nat

/-- Wrapping subtraction on `u32`, the semantics of the `id - 1`
expression in the trampolines when overflow checks are off: operands are
reduced modulo 2 ^ 32 and the difference wraps. -/
def u32_wrapping_sub (a b : Nat) : Nat :=
  (a % 4294967296 + (4294967296 - b % 4294967296)) % 4294967296

/-- A Rust `Value` (the tagged dynamic container): `rawRepr` is the bit
pattern of its inner `GValue`, which `ptr::read (v.to_glib_none().0)`
copies out. -/
structure ValueM where
  rawRepr : Nat
deriving DecidableEq, Repr

/-- Observable actions of a trampoline invocation, in program order.
`dropValue` is the event the translation emits for an implicit Rust
destructor run of a `Value`; `abortProcess` is the event for a panic or
abort crossing the trampoline.  Neither is emitted by the code under
verification: their absence from a trace is the corresponding claim. -/
inductive Event where
  | guardAcquire (obj : RawPtr)
  | guardRelease (obj : RawPtr)
  | recoverInstance (obj : RawPtr)
  | dispatchGet (obj : RawPtr) (id : Nat)
  | dispatchSet (obj : RawPtr) (id : Nat) (valueSlot : RawPtr)
  | dispatchConstructed (obj : RawPtr)
  | valueUnset (slot : RawPtr)
  | slotWrite (slot : RawPtr) (repr : Nat)
  | memForget (repr : Nat)
  | dropValue (repr : Nat)
  | eprintln (msg : String)
  | invokeHandler (funcPtr : RawPtr) (obj : RawPtr)
  | abortProcess (msg : String)
deriving DecidableEq, Repr

/-- Modelled from the spec: the expansion of the
`glib_floating_reference_guard!` macro is outside the given sources; per
the Reference-Safety Guard section it is a scoped guard tied to the raw
instance pointer, taken on entry and released automatically on every
exit path of the call.  `withGuard obj body` brackets the trace of the
body with the acquire and release events. -/
def withGuard (obj : RawPtr) (body : List Event) : List Event :=
  (Event.guardAcquire obj :: body) ++ [Event.guardRelease obj]

/-- Trace of the `get_property` vtable trampoline
(src/subclass/object.rs lines 86 to 108).  `impGet` is the registered
implementation of `ObjectImpl::get_property`; the trampoline takes the
guard, recovers the implementing object, dispatches with the index
translated by wrapping `u32` subtraction, and on `Ok(v)` unsets the
foreign output slot, bit-copies the inner representation of `v` into it
with `ptr::write`/`ptr::read`, and forgets `v`; on `Err(())` it prints a
diagnostic to stderr. -/
def get_property_tramp (impGet : RawPtr → Nat → Except Unit ValueM)
    (obj : RawPtr) (id : Nat) (value : RawPtr) : List Event :=
  withGuard obj
    (Event.recoverInstance obj ::
      Event.dispatchGet obj (u32_wrapping_sub id 1) ::
      match impGet obj (u32_wrapping_sub id 1) with
      | Except.ok v =>
          [Event.valueUnset value,
           Event.slotWrite value v.rawRepr,
           Event.memForget v.rawRepr]
      | Except.error _ =>
          [Event.eprintln "Failed to get property"])

/-- Trace of the `set_property` vtable trampoline
(src/subclass/object.rs lines 110 to 120): guard, recover the
implementing object, dispatch to `imp.set_property` with the wrapped
index translation and the value slot borrowed in place. -/
def set_property_tramp (obj : RawPtr) (id : Nat) (value : RawPtr) :
    List Event :=
  withGuard obj
    [Event.recoverInstance obj,
     Event.dispatchSet obj (u32_wrapping_sub id 1) value]

/-- Trace of the `constructed` vtable trampoline
(src/subclass/object.rs lines 122 to 128): guard, recover the
implementing object, dispatch to `imp.constructed`. -/
def constructed_tramp (obj : RawPtr) : List Event :=
  withGuard obj
    [Event.recoverInstance obj, Event.dispatchConstructed obj]

/-- Result of a trait method call that may abort: `ret` is a normal
return, `fatal` the `unimplemented!()` panic with its message. -/
inductive Outcome (α : Type) where
  | ret (a : α)
  | fatal (msg : String)
deriving DecidableEq, Repr

/-- Default body of `ObjectImpl::set_property`
(src/subclass/object.rs lines 50 to 52): `unimplemented!()`. -/
def default_set_property (_obj : RawPtr) (_id : Nat) (_value : ValueM) :
    Outcome Unit :=
  Outcome.fatal "not implemented"

/-- Default body of `ObjectImpl::get_property`
(src/subclass/object.rs lines 58 to 60): `unimplemented!()`. -/
def default_get_property (_obj : RawPtr) (_id : Nat) :
    Outcome (Except Unit ValueM) :=
  Outcome.fatal "not implemented"

/-- The parent class vtable as `parent_constructed` reads it: the
`constructed` slot holds an optional C function pointer. -/
structure GObjectClassM where
  constructed : Option RawPtr
deriving DecidableEq, Repr

/-- Type metadata as consumed by `parent_constructed`: the external
Type Registration collaborator hands back a record whose
`get_parent_class` is the parent class vtable. -/
structure TypeDataM where
  parent_class : GObjectClassM
deriving DecidableEq, Repr

/-- Trace of `ObjectImpl::parent_constructed`
(src/subclass/object.rs lines 74 to 83): read the parent class out of
the type data and, if its `constructed` slot is `Some`, invoke that
handler on the object; otherwise do nothing. -/
def parent_constructed (data : TypeDataM) (obj : RawPtr) : List Event :=
  match data.parent_class.constructed with
  | some func => [Event.invokeHandler func obj]
  | none => []

/-- Default body of `ObjectImpl::constructed`
(src/subclass/object.rs lines 67 to 69): chains to
`parent_constructed`. -/
def default_constructed (data : TypeDataM) (obj : RawPtr) : List Event :=
  parent_constructed data obj

/-- The truncating `as u32` cast: reduction modulo 2 ^ 32. -/
def u32_cast (n : Nat) : Nat :=
  n % 4294967296

/-- One foreign batch registration call made by `install_properties`:
`g_object_class_install_properties (klass, n_pspecs, pspecs)`, with the
raw `GParamSpec` pointer array modelled as `Option Nat` entries
(`none` for a null pointer). -/
structure InstallCall where
  n_pspecs : Nat
  pspecs : List (Option Nat)
deriving DecidableEq, Repr

/-- The foreign registration calls made by
`ObjectClassSubclassExt::install_properties`
(src/subclass/object.rs lines 146 to 166).  The `Property` descriptor
type and its `Into<*mut GParamSpec>` conversion live in the
`properties` module outside the given sources, so descriptors are
abstracted to a type `α` with a conversion `conv : α → Nat` to a raw
descriptor pointer.  On an empty slice the function returns before
building anything; otherwise it builds the `pspecs` vector by first
pushing a null pointer and then pushing the converted descriptors in
order, and makes exactly one batch call with that vector and its
length truncated by the `pspecs.len() as u32` cast of line 162. -/
def install_properties {α : Type} (conv : α → Nat) (properties : List α) :
    List InstallCall :=
  if properties.isEmpty then []
  else
    let pspecs : List (Option Nat) := [Option.none]
    let pspecs :=
      properties.foldl (fun ps p => ps ++ [some (conv p)]) pspecs
    [{ n_pspecs := u32_cast pspecs.length, pspecs := pspecs }]

/-- `G_SIGNAL_RUN_LAST` flag bit of the foreign signal system. -/
def G_SIGNAL_RUN_LAST : Nat := 2

/-- `G_SIGNAL_ACTION` flag bit of the foreign signal system. -/
def G_SIGNAL_ACTION : Nat := 32

/-- One `g_signal_newv` foreign call, field for field in the ABI order
of the source: name, instance type, flags, class closure pointer,
whether an accumulator trampoline function pointer is supplied, the
opaque accumulator data pointer, the C marshaller, return type, and the
parameter type array with its length. -/
structure SignalNewvCall where
  signal_name : String
  itype : Nat
  signal_flags : Nat
  class_closure : Option Nat
  has_accumulator : Bool
  accu_data : Option Nat
  c_marshaller : Option Nat
  return_type : Nat
  n_params : Nat
  param_types : List Nat
deriving DecidableEq, Repr

/-- A heap allocation with a stable address, the model of a Rust
`Box`. -/
structure Boxed (α : Type) where
  addr : Nat
  contents : α

/-- Type of the user accumulator predicate,
`Fn(&mut Value, &Value) -> bool` (the mutable borrow of the
accumulated value is modelled by passing it by value). -/
abbrev AccuPred := ValueM → ValueM → Bool

/-- `gboolean` encoding of a Rust `bool` by `to_glib`: 1 for true,
0 for false. -/
def bool_to_glib (b : Bool) : Int :=
  if b then 1 else 0

/-- The raw accumulator trampoline nested in
`add_signal_with_accumulator` (src/subclass/object.rs lines 213 to
226): the opaque `data` pointer is read back as the leaked double box,
the inner predicate is applied to the accumulated return value and the
handler return value, and its boolean result is returned to the foreign
runtime as a `gboolean`. -/
def accumulator_trampoline (data : Boxed (Boxed AccuPred))
    (return_accu handler_return : ValueM) : Int :=
  bool_to_glib (data.contents.contents return_accu handler_return)

/-- Result of `add_signal_with_accumulator`: the double box produced by
`Box::into_raw` (never reclaimed: `freedAddrs` lists the heap addresses
released during the call, and the source releases none), and the one
`g_signal_newv` call. -/
structure AccuInstall where
  leaked : Boxed (Boxed AccuPred)
  freedAddrs : List Nat
  call : SignalNewvCall

/-- `ObjectClassSubclassExt::add_signal_with_accumulator`
(src/subclass/object.rs lines 199 to 242).  `boxAddr` and `innerAddr`
are the heap addresses the two nested `Box::new` allocations receive.
The predicate is boxed twice, the outer box is leaked through
`Box::into_raw` and its address passed as the opaque accumulator data,
the accumulator function pointer slot is filled with
`accumulator_trampoline`, the class closure and marshaller are null,
and the flags are run-last. -/
def add_signal_with_accumulator (boxAddr innerAddr : Nat)
    (name : String) (itype : Nat) (arg_types : List Nat)
    (ret_type : Nat) (accumulator : AccuPred) : AccuInstall :=
  let boxed : Boxed (Boxed AccuPred) := ⟨boxAddr, ⟨innerAddr, accumulator⟩⟩
  { leaked := boxed
    freedAddrs := []
    call :=
      { signal_name := name
        itype := itype
        signal_flags := G_SIGNAL_RUN_LAST
        class_closure := none
        has_accumulator := true
        accu_data := some boxed.addr
        c_marshaller := none
        return_type := ret_type
        n_params := arg_types.length
        param_types := arg_types } }

/-- Type of the user action handler, `Fn(&[Value]) -> Option<Value>`. -/
abbrev ActionHandler := List ValueM → Option ValueM

/-- The external `Closure` primitive wrapping a handler: an owned
closure object with a raw glib address obtained by `to_glib_none`. -/
structure ClosureM where
  addr : Nat
  handler : ActionHandler

/-- `Closure::new` of the external closure-boxing collaborator,
wrapping a typed handler into a foreign-callable closure object at a
fresh address. -/
def closure_new (addr : Nat) (handler : ActionHandler) : ClosureM :=
  ⟨addr, handler⟩

/-- Result of `add_action_signal`: the wrapped closure and the one
`g_signal_newv` call. -/
structure ActionInstall where
  closure : ClosureM
  call : SignalNewvCall

/-- `ObjectClassSubclassExt::add_action_signal`
(src/subclass/object.rs lines 250 to 270).  The handler is wrapped in
the external `Closure` primitive, whose raw pointer is passed as the
class closure of the one `g_signal_newv` call; the flags are
run-last combined with action; no accumulator and no accumulator data
are supplied. -/
def add_action_signal (closureAddr : Nat) (name : String) (itype : Nat)
    (arg_types : List Nat) (ret_type : Nat) (handler : ActionHandler) :
    ActionInstall :=
  let c := closure_new closureAddr handler
  { closure := c
    call :=
      { signal_name := name
        itype := itype
        signal_flags := Nat.lor G_SIGNAL_RUN_LAST G_SIGNAL_ACTION
        class_closure := some c.addr
        has_accumulator := false
        accu_data := none
        c_marshaller := none
        return_type := ret_type
        n_params := arg_types.length
        param_types := arg_types } }

/-- Building a vector by repeated push is appending the mapped list. -/
theorem foldl_push_eq_append {α : Type} (conv : α → Nat) (props : List α)
    (init : List (Option Nat)) :
    props.foldl (fun ps p => ps ++ [some (conv p)]) init =
      init ++ props.map (fun p => some (conv p)) := by
  induction props generalizing init with
  | nil => simp
  | cons p ps ih => simp [ih, List.append_assoc]

/-- For an in-range `u32` of at least 1, the wrapping decrement agrees
with the exact decrement. -/
theorem u32_wrapping_sub_one_eq (id : Nat) (h1 : 1 ≤ id)
    (h2 : id < 4294967296) : u32_wrapping_sub id 1 = id - 1 := by
  obtain ⟨k, rfl⟩ : ∃ k, id = k + 1 := ⟨id - 1, by omega⟩
  have hk : k < 4294967296 := by omega
  have h3 : (k + 1) % 4294967296 = k + 1 := Nat.mod_eq_of_lt h2
  have h4 : (1 : Nat) % 4294967296 = 1 := by norm_num
  unfold u32_wrapping_sub
  rw [h3, h4]
  have h5 : k + 1 + (4294967296 - 1) = k + 4294967296 := by omega
  rw [h5, Nat.add_mod_right, Nat.mod_eq_of_lt hk]
  omega

/-- Claim C1: every invocation of each of the three vtable trampolines
takes the floating-reference guard as its first action, before
recovering the implementing object or dispatching, and the guard is
released as the final action on every exit path, including the error
branch of the property getter. -/
theorem C1_guard_first_action_released_all_paths
    (impGet : RawPtr → Nat → Except Unit ValueM)
    (obj : RawPtr) (id : Nat) (value : RawPtr) :
    (get_property_tramp impGet obj id value).head? =
        some (Event.guardAcquire obj) ∧
    (get_property_tramp impGet obj id value).getLast? =
        some (Event.guardRelease obj) ∧
    (set_property_tramp obj id value).head? =
        some (Event.guardAcquire obj) ∧
    (set_property_tramp obj id value).getLast? =
        some (Event.guardRelease obj) ∧
    (constructed_tramp obj).head? = some (Event.guardAcquire obj) ∧
    (constructed_tramp obj).getLast? = some (Event.guardRelease obj) := by
  refine ⟨?_, ?_, ?_, ?_, ?_, ?_⟩ <;>
    cases h : impGet obj (u32_wrapping_sub id 1) <;>
      simp [get_property_tramp, set_property_tramp, constructed_tramp,
        withGuard, h, List.getLast?_concat]

/-- Claim C2: when the implementation getter returns `Ok(v)`, the
property-get trampoline performs, contiguously and in this order, a
clear of the existing payload of the foreign output slot, a bit-copy of
the inner representation of `v` into that slot, and a `mem::forget` of
`v`; no value destructor runs anywhere in the call. -/
theorem C2_get_ok_moves_value_suppresses_drop
    (impGet : RawPtr → Nat → Except Unit ValueM)
    (obj id value : Nat) (v : ValueM)
    (h : impGet obj (u32_wrapping_sub id 1) = Except.ok v) :
    (∃ pre post,
        get_property_tramp impGet obj id value =
          pre ++
            [Event.valueUnset value,
             Event.slotWrite value v.rawRepr,
             Event.memForget v.rawRepr] ++ post) ∧
    (∀ r, Event.dropValue r ∉ get_property_tramp impGet obj id value) := by
  constructor
  · refine ⟨[Event.guardAcquire obj, Event.recoverInstance obj,
      Event.dispatchGet obj (u32_wrapping_sub id 1)],
      [Event.guardRelease obj], ?_⟩
    simp [get_property_tramp, withGuard, h]
  · intro r
    simp [get_property_tramp, withGuard, h]

/-- Witness for C2: a getter that returns `Ok` of the value with
representation 42, on object 1, ABI index 2, output slot 7. -/
theorem C2_get_ok_moves_value_suppresses_drop_witness :
    ((fun (_ : RawPtr) (_ : Nat) =>
        (Except.ok (⟨42⟩ : ValueM) : Except Unit ValueM))
        1 (u32_wrapping_sub 2 1) = Except.ok (⟨42⟩ : ValueM)) ∧
    ((∃ pre post,
        get_property_tramp (fun _ _ => Except.ok (⟨42⟩ : ValueM)) 1 2 7 =
          pre ++
            [Event.valueUnset 7,
             Event.slotWrite 7 (ValueM.mk 42).rawRepr,
             Event.memForget (ValueM.mk 42).rawRepr] ++ post) ∧
     (∀ r, Event.dropValue r ∉
        get_property_tramp (fun _ _ => Except.ok (⟨42⟩ : ValueM)) 1 2 7)) :=
  ⟨rfl, C2_get_ok_moves_value_suppresses_drop _ 1 2 7 ⟨42⟩ rfl⟩

/-- Claim C3: when the implementation getter returns `Err(())`, the
property-get trampoline prints the diagnostic to the error channel,
never clears or writes the foreign output slot, does not abort, and
runs to its normal end (the guard release is the final action). -/
theorem C3_get_err_prints_and_leaves_slot
    (impGet : RawPtr → Nat → Except Unit ValueM) (obj id value : Nat)
    (h : impGet obj (u32_wrapping_sub id 1) = Except.error ()) :
    Event.eprintln "Failed to get property" ∈
        get_property_tramp impGet obj id value ∧
    Event.valueUnset value ∉ get_property_tramp impGet obj id value ∧
    (∀ r, Event.slotWrite value r ∉
        get_property_tramp impGet obj id value) ∧
    (∀ m, Event.abortProcess m ∉
        get_property_tramp impGet obj id value) ∧
    (get_property_tramp impGet obj id value).getLast? =
        some (Event.guardRelease obj) := by
  refine ⟨?_, ?_, fun r => ?_, fun m => ?_, ?_⟩ <;>
    simp [get_property_tramp, withGuard, h, List.getLast?_concat]

/-- Witness for C3: a getter that always fails, on object 1, ABI index
2, output slot 7. -/
theorem C3_get_err_prints_and_leaves_slot_witness :
    ((fun (_ : RawPtr) (_ : Nat) => (Except.error () : Except Unit ValueM))
        1 (u32_wrapping_sub 2 1) = Except.error ()) ∧
    (Event.eprintln "Failed to get property" ∈
        get_property_tramp (fun _ _ => Except.error ()) 1 2 7 ∧
     Event.valueUnset 7 ∉ get_property_tramp (fun _ _ => Except.error ()) 1 2 7 ∧
     (∀ r, Event.slotWrite 7 r ∉
        get_property_tramp (fun _ _ => Except.error ()) 1 2 7) ∧
     (∀ m, Event.abortProcess m ∉
        get_property_tramp (fun _ _ => Except.error ()) 1 2 7) ∧
     (get_property_tramp (fun _ _ => Except.error ()) 1 2 7).getLast? =
        some (Event.guardRelease 1)) :=
  ⟨rfl, C3_get_err_prints_and_leaves_slot _ 1 2 7 rfl⟩

/-- Claim C4: for an ABI property index of at least 1 (and within
`u32` range), both property trampolines dispatch to the implementation
with index `id - 1`: the 1-based ABI index is translated to a 0-based
index. -/
theorem C4_abi_index_translated_to_zero_based
    (impGet : RawPtr → Nat → Except Unit ValueM) (obj id value : Nat)
    (h1 : 1 ≤ id) (h2 : id < 4294967296) :
    Event.dispatchGet obj (id - 1) ∈
        get_property_tramp impGet obj id value ∧
    Event.dispatchSet obj (id - 1) value ∈
        set_property_tramp obj id value := by
  have hsub := u32_wrapping_sub_one_eq id h1 h2
  constructor
  · cases h : impGet obj (u32_wrapping_sub id 1) <;>
      simp [get_property_tramp, withGuard, h, hsub]
  · simp [set_property_tramp, withGuard, hsub]

/-- Witness for C4 at ABI index 5, object 3, value slot 9. -/
theorem C4_abi_index_translated_to_zero_based_witness :
    (1 ≤ 5 ∧ 5 < 4294967296) ∧
    (Event.dispatchGet 3 (5 - 1) ∈
        get_property_tramp (fun _ _ => Except.error ()) 3 5 9 ∧
     Event.dispatchSet 3 (5 - 1) 9 ∈ set_property_tramp 3 5 9) :=
  ⟨⟨by decide, by decide⟩,
    C4_abi_index_translated_to_zero_based _ 3 5 9 (by decide) (by decide)⟩

/-- Claim C5: the default (non-overridden) `set_property` and
`get_property` of `ObjectImpl` abort the call with the
`not implemented` panic and never return a recoverable result. -/
theorem C5_default_accessors_abort_not_implemented
    (obj id : Nat) (value : ValueM) :
    default_set_property obj id value = Outcome.fatal "not implemented" ∧
    (∀ u : Unit, default_set_property obj id value ≠ Outcome.ret u) ∧
    default_get_property obj id = Outcome.fatal "not implemented" ∧
    (∀ r, default_get_property obj id ≠ Outcome.ret r) := by
  refine ⟨rfl, fun u => ?_, rfl, fun r => ?_⟩ <;>
    simp [default_set_property, default_get_property]

/-- Claim C6 counterexample: with one descriptor the built raw array is
`[null, descriptor]`; its final slot is the converted descriptor, not
null, so the array is null-prefixed, not null-terminated as the claim
states. -/
theorem C6_not_null_terminated_counterexample :
    install_properties (fun n : Nat => n) [5] =
      [{ n_pspecs := 2, pspecs := [none, some 5] }] ∧
    ([Option.none, some 5] : List (Option Nat)).getLast? ≠
      some Option.none := by
  decide

/-- Claim C6 as amended: `install_properties` called with an empty
property sequence returns immediately without making any foreign
registration call or modifying the class struct; called with a
non-empty sequence of `N` descriptors it builds a raw descriptor array
whose first slot is the reserved null followed by the `N` converted
descriptors in order (null-prefixed, with no trailing null terminator),
and registers them in exactly one batch call.  The length argument of
that call is whatever the program computes for it: the array length
under the truncating `as u32` cast. -/
theorem C6_install_properties_null_prefixed_one_call
    {α : Type} (conv : α → Nat) (props : List α) :
    install_properties conv props =
      if props.isEmpty then []
      else
        [{ n_pspecs := u32_cast (props.length + 1),
           pspecs :=
             Option.none :: props.map (fun p => some (conv p)) }] := by
  unfold install_properties
  cases props with
  | nil => rfl
  | cons p ps => simp [foldl_push_eq_append, Nat.add_comm]

/-- Claim C7: `add_signal_with_accumulator` boxes the predicate behind
a double indirection, leaks the outer box (its address becomes the
opaque callback data and no heap address is freed), installs the raw
accumulator trampoline, and the trampoline applies the boxed predicate
to the accumulated and handler return values and hands back its boolean
as a `gboolean`. -/
theorem C7_accumulator_boxed_leaked_trampoline_applies
    (boxAddr innerAddr : Nat) (name : String) (itype : Nat)
    (arg_types : List Nat) (ret_type : Nat) (acc : AccuPred) :
    (add_signal_with_accumulator boxAddr innerAddr name itype arg_types
        ret_type acc).leaked.contents.contents = acc ∧
    (add_signal_with_accumulator boxAddr innerAddr name itype arg_types
        ret_type acc).call.accu_data =
      some (add_signal_with_accumulator boxAddr innerAddr name itype
        arg_types ret_type acc).leaked.addr ∧
    (add_signal_with_accumulator boxAddr innerAddr name itype arg_types
        ret_type acc).freedAddrs = [] ∧
    (add_signal_with_accumulator boxAddr innerAddr name itype arg_types
        ret_type acc).call.has_accumulator = true ∧
    (∀ accu hret,
      accumulator_trampoline
          (add_signal_with_accumulator boxAddr innerAddr name itype
            arg_types ret_type acc).leaked accu hret =
        bool_to_glib (acc accu hret)) :=
  ⟨rfl, rfl, rfl, rfl, fun _ _ => rfl⟩

/-- Claim C8: the default `constructed` chains to
`parent_constructed`; `parent_constructed` invokes the handler found in
the parent class vtable exactly once when one is installed, and is a
no-op when the parent installed none. -/
theorem C8_constructed_chains_parent_invoked_once
    (obj func : Nat) (data : TypeDataM) :
    default_constructed data obj = parent_constructed data obj ∧
    parent_constructed ⟨⟨some func⟩⟩ obj =
      [Event.invokeHandler func obj] ∧
    parent_constructed ⟨⟨none⟩⟩ obj = [] :=
  ⟨rfl, rfl, rfl⟩

/-- Claim C9: `add_action_signal` registers with run-last and action
flags both set, supplies the handler wrapped in the external `Closure`
primitive as the class closure of the single registration call, and
installs no accumulator. -/
theorem C9_action_signal_flags_closure_no_accumulator
    (closureAddr : Nat) (name : String) (itype ret_type : Nat)
    (arg_types : List Nat) (handler : ActionHandler) :
    (add_action_signal closureAddr name itype arg_types ret_type
        handler).call.signal_flags =
      Nat.lor G_SIGNAL_RUN_LAST G_SIGNAL_ACTION ∧
    (add_action_signal closureAddr name itype arg_types ret_type
        handler).call.class_closure =
      some (add_action_signal closureAddr name itype arg_types ret_type
        handler).closure.addr ∧
    (add_action_signal closureAddr name itype arg_types ret_type
        handler).closure.handler = handler ∧
    (add_action_signal closureAddr name itype arg_types ret_type
        handler).call.has_accumulator = false ∧
    (add_action_signal closureAddr name itype arg_types ret_type
        handler).call.accu_data = none := by
  refine ⟨?_, ?_, ?_, ?_, ?_⟩ <;> simp [add_action_signal, closure_new]

/-- Claim C10: the index translation is unchecked wrapping `u32`
subtraction: at the reserved ABI index 0 both property trampolines
dispatch with index 4294967295, and for every incoming index the
dispatch happens (no trampoline validates that the index is at
least 1). -/
theorem C10_index_zero_wraps_no_validation :
    u32_wrapping_sub 0 1 = 4294967295 ∧
    (∀ (impGet : RawPtr → Nat → Except Unit ValueM) (obj value : Nat),
      Event.dispatchGet obj 4294967295 ∈
        get_property_tramp impGet obj 0 value) ∧
    (∀ obj value : Nat,
      Event.dispatchSet obj 4294967295 value ∈
        set_property_tramp obj 0 value) ∧
    (∀ (impGet : RawPtr → Nat → Except Unit ValueM) (obj id value : Nat),
      Event.dispatchGet obj (u32_wrapping_sub id 1) ∈
        get_property_tramp impGet obj id value) ∧
    (∀ obj id value : Nat,
      Event.dispatchSet obj (u32_wrapping_sub id 1) value ∈
        set_property_tramp obj id value) := by
  have h0 : u32_wrapping_sub 0 1 = 4294967295 := by decide
  refine ⟨h0, ?_, ?_, ?_, ?_⟩
  · intro impGet obj value
    simp only [get_property_tramp, withGuard, h0]
    cases h : impGet obj 4294967295 <;> simp [h]
  · intro obj value
    simp [set_property_tramp, withGuard, h0]
  · intro impGet obj id value
    cases h : impGet obj (u32_wrapping_sub id 1) <;>
      simp [get_property_tramp, withGuard, h]
  · intro obj id value
    simp [set_property_tramp, withGuard]
